import Mathlib

/-!
Verification development for the data model of `mcp_agent_mail`
(`src/mcp_agent_mail/models.py`) and the coordination-core contracts
described in its design document.

Conventions of the embedding:
- SQL integer ids are `Nat`; `Optional[int]` / nullable columns are `Option Nat`.
- Timestamps (`datetime`) are `Nat` instants; "now" is passed explicitly to the
  creation functions that mirror `default_factory=lambda: datetime.now(...)`.
- A table is a `List` of rows; a SQL `UniqueConstraint` (or a composite primary
  key) over some columns is the predicate that the key function over those
  columns is pairwise distinct on the list.
- Python `float` (only `ProjectSiblingSuggestion.score`, untouched by every
  property proved here) is `Rat`.
-/

/-- JSON-like value, the element type of JSON columns
(Python `dict[str, Any]` entries of `Message.attachments`). -/
inductive JsonValue where
  | null : JsonValue
  | bool : Bool → JsonValue
  | num : Int → JsonValue
  | str : String → JsonValue
  | arr : List JsonValue → JsonValue
  | obj : List (String × JsonValue) → JsonValue

/-- `class Project` (`models.py:13-19`): repository identity with a unique `slug`. -/
structure Project where
  id : Option Nat
  slug : String
  human_key : String
  created_at : Nat
deriving Repr, DecidableEq

/-- Creating a `Project` with only the required constructor arguments:
`id` defaults to `None`, `created_at` to the current time. -/
def mkProject (slug human_key : String) (now : Nat) : Project :=
  { id := none, slug := slug, human_key := human_key, created_at := now }

/-- `slug: str = Field(index=True, unique=True, ...)`: the `slug` column is
unique across the `projects` table. -/
def projectSlugUnique (s : List Project) : Prop :=
  s.Pairwise fun a b => a.slug ≠ b.slug

/-- `class Agent` (`models.py:44-58`): a named actor scoped to one project. -/
structure Agent where
  id : Option Nat
  project_id : Nat
  name : String
  program : String
  model : String
  task_description : String
  inception_ts : Nat
  last_active_ts : Nat
  attachments_policy : String
  contact_policy : String
  deregistered_ts : Option Nat
deriving Repr, DecidableEq

/-- Creating an `Agent` with only the required constructor arguments
(`project_id`, `name`, `program`, `model`); all other columns take their
declared defaults (`task_description=""`, both policies `"auto"`,
`deregistered_ts=None`, timestamp columns the current time). -/
def mkAgent (project_id : Nat) (name program model : String) (now : Nat) : Agent :=
  { id := none, project_id := project_id, name := name, program := program,
    model := model, task_description := "", inception_ts := now,
    last_active_ts := now, attachments_policy := "auto",
    contact_policy := "auto", deregistered_ts := none }

/-- Key of `UniqueConstraint("project_id", "name", name="uq_agent_project_name")`. -/
def agentKey (a : Agent) : Nat × String :=
  (a.project_id, a.name)

/-- The `uq_agent_project_name` table constraint: `(project_id, name)` is
unique across the `agents` table. -/
def uq_agent_project_name (s : List Agent) : Prop :=
  s.Pairwise fun a b => agentKey a ≠ agentKey b

/-- `class MessageRecipient` (`models.py:61-68`): join row with composite
primary key `(message_id, agent_id)`. -/
structure MessageRecipient where
  message_id : Nat
  agent_id : Nat
  kind : String
  read_ts : Option Nat
  ack_ts : Option Nat
deriving Repr, DecidableEq

/-- Creating a `MessageRecipient` with only the key columns: `kind` defaults
to `"to"`, both timestamps to `None`. -/
def mkMessageRecipient (message_id agent_id : Nat) : MessageRecipient :=
  { message_id := message_id, agent_id := agent_id, kind := "to",
    read_ts := none, ack_ts := none }

/-- Composite primary key of `message_recipients`. -/
def messageRecipientKey (m : MessageRecipient) : Nat × Nat :=
  (m.message_id, m.agent_id)

/-- The composite primary key `(message_id, agent_id)` is unique across the
`message_recipients` table. -/
def pkMessageRecipient (s : List MessageRecipient) : Prop :=
  s.Pairwise fun a b => messageRecipientKey a ≠ messageRecipientKey b

/-- `class Message` (`models.py:71-86`): immutable unit of communication.
`attachments` is a JSON column (`nullable=False`) holding an ordered list of
string-keyed descriptor objects. -/
structure Message where
  id : Option Nat
  project_id : Nat
  sender_id : Nat
  thread_id : Option String
  subject : String
  body_md : String
  importance : String
  ack_required : Bool
  created_ts : Nat
  attachments : List (List (String × JsonValue))

/-- `attachments` is declared `Column(JSON, nullable=False, server_default="[]")`:
the column is not nullable. -/
def messageAttachmentsNullable : Bool := false

/-- Creating a `Message` with only the required constructor arguments:
`thread_id` defaults to `None`, `importance` to `"normal"`, `ack_required`
to `False`, `attachments` to the empty list. -/
def mkMessage (project_id sender_id : Nat) (subject body_md : String)
    (now : Nat) : Message :=
  { id := none, project_id := project_id, sender_id := sender_id,
    thread_id := none, subject := subject, body_md := body_md,
    importance := "normal", ack_required := false, created_ts := now,
    attachments := [] }

/-- `class FileReservation` (`models.py:89-100`): a claim by one agent on a
path pattern within a project. -/
structure FileReservation where
  id : Option Nat
  project_id : Nat
  agent_id : Nat
  path_pattern : String
  exclusive : Bool
  reason : String
  created_ts : Nat
  expires_ts : Nat
  released_ts : Option Nat
deriving Repr, DecidableEq

/-- Creating a `FileReservation` with only the required constructor arguments
(`expires_ts` has no default in the schema): `exclusive` defaults to `True`,
`reason` to `""`, `released_ts` to `None`. -/
def mkFileReservation (project_id agent_id : Nat) (path_pattern : String)
    (expires_ts now : Nat) : FileReservation :=
  { id := none, project_id := project_id, agent_id := agent_id,
    path_pattern := path_pattern, exclusive := true, reason := "",
    created_ts := now, expires_ts := expires_ts, released_ts := none }

/-- Modelled from the spec: the reservation activity predicate is not in
`models.py` (the schema only declares the columns); per the design document a
reservation is active iff `released_ts` is null and `expires_ts` is in the
future, with expiry evaluated lazily at query time. -/
def isActiveReservation (r : FileReservation) (t : Nat) : Bool :=
  r.released_ts.isNone && decide (t < r.expires_ts)

/-- Modelled from the spec: releasing a reservation is the only mutation a
reservation ever undergoes; it sets `released_ts` and nothing else. -/
def releaseReservation (r : FileReservation) (t : Nat) : FileReservation :=
  { r with released_ts := some t }

/-- `class AgentLink` (`models.py:103-121`): directed contact-link request
from agent A to agent B, each endpoint a (project, agent) pair. -/
structure AgentLink where
  id : Option Nat
  a_project_id : Nat
  a_agent_id : Nat
  b_project_id : Nat
  b_agent_id : Nat
  status : String
  reason : String
  created_ts : Nat
  updated_ts : Nat
  expires_ts : Option Nat
deriving Repr, DecidableEq

/-- Creating an `AgentLink` with only the endpoint columns: `status` defaults
to `"pending"`, `reason` to `""`, `expires_ts` to `None`. -/
def mkAgentLink (a_project_id a_agent_id b_project_id b_agent_id : Nat)
    (now : Nat) : AgentLink :=
  { id := none, a_project_id := a_project_id, a_agent_id := a_agent_id,
    b_project_id := b_project_id, b_agent_id := b_agent_id,
    status := "pending", reason := "", created_ts := now, updated_ts := now,
    expires_ts := none }

/-- Key of `UniqueConstraint("a_project_id", "a_agent_id", "b_project_id",
"b_agent_id", name="uq_agentlink_pair")`: the ordered endpoint quadruple. -/
def agentLinkKey (l : AgentLink) : Nat × Nat × Nat × Nat :=
  (l.a_project_id, l.a_agent_id, l.b_project_id, l.b_agent_id)

/-- The `uq_agentlink_pair` table constraint: the ordered endpoint quadruple
is unique across the `agent_links` table. -/
def uq_agentlink_pair (s : List AgentLink) : Prop :=
  s.Pairwise fun a b => agentLinkKey a ≠ agentLinkKey b

/-- Modelled from the spec: the link state machine is not in `models.py`
(the schema only documents `status` as `pending | approved | blocked`);
per the design document the legal transitions are pending→approved,
pending→blocked and approved→blocked. -/
def linkStepAllowed (src dst : String) : Bool :=
  (src == "pending" && dst == "approved") ||
  (src == "pending" && dst == "blocked") ||
  (src == "approved" && dst == "blocked")

/-- `class ProjectSiblingSuggestion` (`models.py:124-139`): sibling-project
suggestion for a pair of projects. -/
structure ProjectSiblingSuggestion where
  id : Option Nat
  project_a_id : Nat
  project_b_id : Nat
  score : Rat
  status : String
  rationale : String
  created_ts : Nat
  evaluated_ts : Nat
  confirmed_ts : Option Nat
  dismissed_ts : Option Nat
deriving Repr, DecidableEq

/-- Creating a `ProjectSiblingSuggestion` with only the two project columns:
`score` defaults to `0.0`, `status` to `"suggested"`, `rationale` to `""`,
`confirmed_ts` and `dismissed_ts` to `None`. -/
def mkProjectSiblingSuggestion (project_a_id project_b_id : Nat)
    (now : Nat) : ProjectSiblingSuggestion :=
  { id := none, project_a_id := project_a_id, project_b_id := project_b_id,
    score := 0, status := "suggested", rationale := "", created_ts := now,
    evaluated_ts := now, confirmed_ts := none, dismissed_ts := none }

/-- Key of `UniqueConstraint("project_a_id", "project_b_id",
name="uq_project_sibling_pair")`: the ordered column pair as declared. -/
def projectSiblingKey (s : ProjectSiblingSuggestion) : Nat × Nat :=
  (s.project_a_id, s.project_b_id)

/-- The `uq_project_sibling_pair` table constraint exactly as declared in the
schema: the ordered `(project_a_id, project_b_id)` pair is unique across the
`project_sibling_suggestions` table. -/
def uq_project_sibling_pair (s : List ProjectSiblingSuggestion) : Prop :=
  s.Pairwise fun a b => projectSiblingKey a ≠ projectSiblingKey b

/-- The spec's wording for sibling-suggestion identity: two rows concern the
same unordered project pair if their project columns agree in either order. -/
def sameUnorderedProjectPair (x y : ProjectSiblingSuggestion) : Prop :=
  (x.project_a_id = y.project_a_id ∧ x.project_b_id = y.project_b_id) ∨
  (x.project_a_id = y.project_b_id ∧ x.project_b_id = y.project_a_id)

/-- A delivery decision of the contact-policy resolver. -/
inductive Decision where
  | allow : Decision
  | deny : String → Decision
deriving Repr, DecidableEq

/-- Whether a looked-up directed link record has status `blocked`. -/
def lookedUpLinkBlocked (link : Option AgentLink) : Bool :=
  match link with
  | some l => l.status == "blocked"
  | none => false

/-- Whether a looked-up directed link record is approved and non-expired at
time `now` (a link with `expires_ts = None` never expires). -/
def lookedUpLinkApproved (link : Option AgentLink) (now : Nat) : Bool :=
  match link with
  | some l =>
      l.status == "approved" &&
        (match l.expires_ts with
         | none => true
         | some e => decide (now < e))
  | none => false

/-- Modelled from the spec: the contact-policy resolver `CanDeliver` is not in
`models.py` (the schema only declares `contact_policy`); rules in order:
deregistered recipient denied; `block_all` denied unless same project; same
project allowed; cross-project consults the directed link `sender→recipient`
(blocked link denies regardless of policy, `open` and `auto` allow,
`contacts_only` requires an approved non-expired link); default deny. -/
def CanDeliver (sender recipient : Agent) (link : Option AgentLink)
    (now : Nat) : Decision :=
  if recipient.deregistered_ts.isSome then
    Decision.deny "recipient inactive"
  else if recipient.contact_policy == "block_all" &&
      !(sender.project_id == recipient.project_id) then
    Decision.deny "recipient blocks all contact"
  else if sender.project_id == recipient.project_id then
    Decision.allow
  else if lookedUpLinkBlocked link then
    Decision.deny "link blocked"
  else if recipient.contact_policy == "open" then
    Decision.allow
  else if recipient.contact_policy == "auto" then
    Decision.allow
  else if recipient.contact_policy == "contacts_only" then
    if lookedUpLinkApproved link now then Decision.allow
    else Decision.deny "no contact path"
  else
    Decision.deny "no contact path"

/-- Rows of a table whose key column-tuple is pairwise distinct are uniquely
identified by that key: equal keys force equal positions. -/
theorem key_pairwise_getElem_inj {α κ : Type} (key : α → κ) (s : List α)
    (h : s.Pairwise fun a b => key a ≠ key b) (i j : Nat)
    (hi : i < s.length) (hj : j < s.length)
    (hk : key s[i] = key s[j]) : i = j := by
  by_contra hne
  rcases Nat.lt_or_ge i j with hlt | hge
  · exact (List.pairwise_iff_getElem.mp h i j hi hj hlt) hk
  · have hlt : j < i := lt_of_le_of_ne hge fun e => hne e.symm
    exact (List.pairwise_iff_getElem.mp h j i hj hi hlt) hk.symm

/-- C1 counterexample: the `uq_project_sibling_pair` constraint declared in the
schema is a uniqueness over the ordered `(project_a_id, project_b_id)` column
pair, so a table holding one suggestion row for (1, 2) and another for (2, 1)
— two distinct rows for the same unordered project pair — satisfies the
declared constraint, contradicting the claim that the pair-uniqueness
constraint is direction-insensitive. -/
theorem c1_unordered_uniqueness_counterexample :
    uq_project_sibling_pair
      [mkProjectSiblingSuggestion 1 2 0, mkProjectSiblingSuggestion 2 1 0] ∧
    sameUnorderedProjectPair (mkProjectSiblingSuggestion 1 2 0)
      (mkProjectSiblingSuggestion 2 1 0) ∧
    (mkProjectSiblingSuggestion 1 2 0).project_a_id ≠
      (mkProjectSiblingSuggestion 2 1 0).project_a_id := by
  refine ⟨?_, ?_, ?_⟩
  · unfold uq_project_sibling_pair
    decide
  · unfold sameUnorderedProjectPair
    decide
  · decide

/-- C1 (amended): under the `uq_project_sibling_pair` constraint actually
declared in the schema, at most one `ProjectSiblingSuggestion` row exists per
ordered `(project_a_id, project_b_id)` pair; the reversed pair has a different
key, so direction-insensitive uniqueness is not enforced by the schema. -/
theorem c1_sibling_unique_per_ordered_pair :
    ∀ s : List ProjectSiblingSuggestion, uq_project_sibling_pair s →
      ∀ i j : Nat, ∀ hi : i < s.length, ∀ hj : j < s.length,
        projectSiblingKey s[i] = projectSiblingKey s[j] → i = j :=
  fun s h i j hi hj hk =>
    key_pairwise_getElem_inj projectSiblingKey s h i j hi hj hk

/-- Witness for C1 (amended) at a concrete two-row table. -/
theorem c1_sibling_unique_per_ordered_pair_witness :
    uq_project_sibling_pair
      [mkProjectSiblingSuggestion 3 4 0, mkProjectSiblingSuggestion 4 3 0] ∧
    (0 : Nat) = 0 :=
  ⟨by unfold uq_project_sibling_pair; decide,
   c1_sibling_unique_per_ordered_pair
     [mkProjectSiblingSuggestion 3 4 0, mkProjectSiblingSuggestion 4 3 0]
     (by unfold uq_project_sibling_pair; decide) 0 0 (by decide) (by decide)
     rfl⟩

/-- C2: under the `uq_agentlink_pair` constraint, at most one `AgentLink` row
exists per ordered endpoint quadruple (a_project, a_agent, b_project, b_agent),
and a row for the reverse direction has a different key, so both directions may
coexist as distinct rows without violating the constraint. -/
theorem c2_agentlink_unique_per_direction :
    (∀ s : List AgentLink, uq_agentlink_pair s →
       ∀ i j : Nat, ∀ hi : i < s.length, ∀ hj : j < s.length,
         agentLinkKey s[i] = agentLinkKey s[j] → i = j) ∧
    (uq_agentlink_pair [mkAgentLink 1 10 2 20 0, mkAgentLink 2 20 1 10 0] ∧
     agentLinkKey (mkAgentLink 1 10 2 20 0) ≠
       agentLinkKey (mkAgentLink 2 20 1 10 0)) := by
  refine ⟨fun s h i j hi hj hk =>
    key_pairwise_getElem_inj agentLinkKey s h i j hi hj hk, ?_, ?_⟩
  · unfold uq_agentlink_pair
    decide
  · decide

/-- Witness for C2 at a concrete one-row table. -/
theorem c2_agentlink_unique_per_direction_witness :
    uq_agentlink_pair [mkAgentLink 5 6 7 8 0] ∧ (0 : Nat) = 0 :=
  ⟨by unfold uq_agentlink_pair; decide,
   c2_agentlink_unique_per_direction.1 [mkAgentLink 5 6 7 8 0]
     (by unfold uq_agentlink_pair; decide) 0 0 (by decide) (by decide) rfl⟩

/-- C3: the composite primary key of `message_recipients` makes the
`(message_id, agent_id)` pair uniquely identify a recipient row: a table
satisfying the key constraint holds no duplicate row for the same pair. -/
theorem c3_message_recipient_unique :
    ∀ s : List MessageRecipient, pkMessageRecipient s →
      ∀ i j : Nat, ∀ hi : i < s.length, ∀ hj : j < s.length,
        messageRecipientKey s[i] = messageRecipientKey s[j] → i = j :=
  fun s h i j hi hj hk =>
    key_pairwise_getElem_inj messageRecipientKey s h i j hi hj hk

/-- Witness for C3 at a concrete two-row table. -/
theorem c3_message_recipient_unique_witness :
    pkMessageRecipient [mkMessageRecipient 1 2, mkMessageRecipient 1 3] ∧
    (1 : Nat) = 1 :=
  ⟨by unfold pkMessageRecipient; decide,
   c3_message_recipient_unique [mkMessageRecipient 1 2, mkMessageRecipient 1 3]
     (by unfold pkMessageRecipient; decide) 1 1 (by decide) (by decide) rfl⟩

/-- C4: under `uq_agent_project_name`, two agent rows in the same project with
the same name are the same row (name unique within a project); under the
unique `slug` column constraint, two project rows with the same slug are the
same row (slug globally unique). -/
theorem c4_agent_name_and_project_slug_unique :
    (∀ s : List Agent, uq_agent_project_name s →
       ∀ i j : Nat, ∀ hi : i < s.length, ∀ hj : j < s.length,
         s[i].project_id = s[j].project_id → s[i].name = s[j].name → i = j) ∧
    (∀ s : List Project, projectSlugUnique s →
       ∀ i j : Nat, ∀ hi : i < s.length, ∀ hj : j < s.length,
         s[i].slug = s[j].slug → i = j) := by
  constructor
  · intro s h i j hi hj hp hn
    refine key_pairwise_getElem_inj agentKey s h i j hi hj ?_
    unfold agentKey
    rw [hp, hn]
  · intro s h i j hi hj hs
    unfold projectSlugUnique at h
    exact key_pairwise_getElem_inj Project.slug s h i j hi hj hs

/-- Witness for C4 at concrete agent and project tables. -/
theorem c4_agent_name_and_project_slug_unique_witness :
    uq_agent_project_name
      [mkAgent 1 "alice" "cli" "m1" 0, mkAgent 1 "bob" "cli" "m1" 0] ∧
    projectSlugUnique [mkProject "repo-a" "A" 0, mkProject "repo-b" "B" 0] ∧
    (0 : Nat) = 0 ∧ (1 : Nat) = 1 :=
  ⟨by unfold uq_agent_project_name; decide,
   by unfold projectSlugUnique; decide,
   c4_agent_name_and_project_slug_unique.1
     [mkAgent 1 "alice" "cli" "m1" 0, mkAgent 1 "bob" "cli" "m1" 0]
     (by unfold uq_agent_project_name; decide) 0 0 (by decide) (by decide)
     rfl rfl,
   c4_agent_name_and_project_slug_unique.2
     [mkProject "repo-a" "A" 0, mkProject "repo-b" "B" 0]
     (by unfold projectSlugUnique; decide) 1 1 (by decide) (by decide) rfl⟩

/-- C5: the schema defaults — an `Agent` created without an explicit
`contact_policy` stores `"auto"`, a `FileReservation` created without an
explicit `exclusive` flag stores `true`, a `Message` created without explicit
attachments stores the empty list, and the `attachments` JSON column is not
nullable. -/
theorem c5_schema_defaults :
    (∀ (project_id : Nat) (name program model : String) (now : Nat),
       (mkAgent project_id name program model now).contact_policy = "auto") ∧
    (∀ (project_id agent_id : Nat) (path_pattern : String)
       (expires_ts now : Nat),
       (mkFileReservation project_id agent_id path_pattern expires_ts
         now).exclusive = true) ∧
    (∀ (project_id sender_id : Nat) (subject body_md : String) (now : Nat),
       (mkMessage project_id sender_id subject body_md now).attachments =
         []) ∧
    messageAttachmentsNullable = false :=
  ⟨fun _ _ _ _ _ => rfl, fun _ _ _ _ _ => rfl, fun _ _ _ _ _ => rfl, rfl⟩

/-- C6: a `FileReservation` is active at time `t` iff `released_ts` is null
and `expires_ts` is strictly later than `t`; an expired reservation is
reported inactive by the pure activity check with no mutation of the record;
and release, the only mutating operation, sets `released_ts` and leaves every
other column unchanged. -/
theorem c6_reservation_activity :
    (∀ (r : FileReservation) (t : Nat),
       isActiveReservation r t = true ↔
         r.released_ts = none ∧ t < r.expires_ts) ∧
    (∀ (r : FileReservation) (t : Nat),
       r.expires_ts ≤ t → isActiveReservation r t = false) ∧
    (∀ (r : FileReservation) (t : Nat),
       (releaseReservation r t).released_ts = some t ∧
       (releaseReservation r t).id = r.id ∧
       (releaseReservation r t).project_id = r.project_id ∧
       (releaseReservation r t).agent_id = r.agent_id ∧
       (releaseReservation r t).path_pattern = r.path_pattern ∧
       (releaseReservation r t).exclusive = r.exclusive ∧
       (releaseReservation r t).reason = r.reason ∧
       (releaseReservation r t).created_ts = r.created_ts ∧
       (releaseReservation r t).expires_ts = r.expires_ts) := by
  refine ⟨?_, ?_, ?_⟩
  · intro r t
    simp [isActiveReservation, Option.isNone_iff_eq_none]
  · intro r t h
    have hn : ¬ t < r.expires_ts := Nat.not_lt.mpr h
    simp [isActiveReservation, hn]
  · intro r t
    exact ⟨rfl, rfl, rfl, rfl, rfl, rfl, rfl, rfl, rfl⟩

/-- Witness for C6 at a concrete expired reservation. -/
theorem c6_reservation_activity_witness :
    (mkFileReservation 1 2 "src/a.py" 5 0).expires_ts ≤ 5 ∧
    isActiveReservation (mkFileReservation 1 2 "src/a.py" 5 0) 5 = false :=
  ⟨by decide,
   c6_reservation_activity.2.1 (mkFileReservation 1 2 "src/a.py" 5 0) 5
     (by decide)⟩

/-- C7: the link state machine allows exactly the transitions
pending→approved, pending→blocked and approved→blocked; no transition leaves
`blocked`; and a newly created `AgentLink` has status `"pending"` (the
schema's column default). -/
theorem c7_link_status_machine :
    (∀ src dst : String,
       linkStepAllowed src dst = true ↔
         (src = "pending" ∧ dst = "approved") ∨
         (src = "pending" ∧ dst = "blocked") ∨
         (src = "approved" ∧ dst = "blocked")) ∧
    (∀ dst : String, linkStepAllowed "blocked" dst = false) ∧
    (∀ (a_project_id a_agent_id b_project_id b_agent_id now : Nat),
       (mkAgentLink a_project_id a_agent_id b_project_id b_agent_id
         now).status = "pending") := by
  refine ⟨?_, ?_, fun _ _ _ _ _ => rfl⟩
  · intro src dst
    simp [linkStepAllowed, or_assoc]
  · intro dst
    unfold linkStepAllowed
    have h1 : ("blocked" == "pending") = false := by decide
    have h2 : ("blocked" == "approved") = false := by decide
    rw [h1, h2]
    simp

/-- C8: the contact-policy resolver allows delivery between a sender and a
non-deregistered recipient of the same project, whatever the recipient's
`contact_policy` value (including `"block_all"`) and whatever link record is
looked up. -/
theorem c8_intra_project_always_allowed :
    ∀ (sender recipient : Agent) (link : Option AgentLink) (now : Nat),
      recipient.deregistered_ts = none →
      sender.project_id = recipient.project_id →
      CanDeliver sender recipient link now = Decision.allow := by
  intro sender recipient link now h1 h2
  simp [CanDeliver, h1, h2]

/-- Witness for C8: a sender reaching a `block_all` recipient of the same
project. -/
theorem c8_intra_project_always_allowed_witness :
    ({ mkAgent 1 "alice" "cli" "m1" 0 with
        contact_policy := "block_all" } : Agent).deregistered_ts = none ∧
    (mkAgent 1 "bob" "cli" "m1" 0).project_id =
      ({ mkAgent 1 "alice" "cli" "m1" 0 with
          contact_policy := "block_all" } : Agent).project_id ∧
    CanDeliver (mkAgent 1 "bob" "cli" "m1" 0)
      { mkAgent 1 "alice" "cli" "m1" 0 with contact_policy := "block_all" }
      none 0 = Decision.allow :=
  ⟨rfl, rfl,
   c8_intra_project_always_allowed (mkAgent 1 "bob" "cli" "m1" 0)
     { mkAgent 1 "alice" "cli" "m1" 0 with contact_policy := "block_all" }
     none 0 rfl rfl⟩

/-- C9: a `MessageRecipient` created without an explicit delivery kind stores
kind `"to"` (the schema's column default); `"cc"` must be supplied
explicitly. -/
theorem c9_recipient_kind_defaults_to_to :
    ∀ message_id agent_id : Nat,
      (mkMessageRecipient message_id agent_id).kind = "to" :=
  fun _ _ => rfl

/-- C10: a `Message` created without explicit values stores `thread_id = None`
(unthreaded until its own id serves as thread root), importance `"normal"`,
and `ack_required = False` (the schema's column defaults). -/
theorem c10_message_defaults :
    ∀ (project_id sender_id : Nat) (subject body_md : String) (now : Nat),
      (mkMessage project_id sender_id subject body_md now).thread_id = none ∧
      (mkMessage project_id sender_id subject body_md now).importance =
        "normal" ∧
      (mkMessage project_id sender_id subject body_md
        now).ack_required = false :=
  fun _ _ _ _ _ => ⟨rfl, rfl, rfl⟩
